import Mathlib

/-!
Verification of the masonry_baseview crate: a shallow embedding of its three
modules (src/event.rs, src/render.rs, src/window.rs) together with theorems
about the event-translation state machine, the render-surface dimension
bookkeeping and the window-handler lifecycle.

Modelling conventions:
* Rust `f64` values (positions, scale factors, logical sizes) are embedded as
  rationals `ℚ`; the arithmetic performed by the crate (add, mul, div, casts)
  is embedded by the corresponding exact rational operation.
* `u32` values are embedded as `Nat`; the Rust cast `f64 as u32` (truncate
  toward zero, saturate at the ends) is embedded by `asU32`.
* `&mut self` methods become state-passing functions returning the new state.
* The monotonic clock (`std::time::Instant`) is embedded by threading an
  ambient `now : Nat` (nanoseconds) into each call that reads it; the
  translator stores its creation instant in `start_time`.
* External collaborators are embedded at their call boundary: the masonry
  `RenderRoot` is a log of the calls the crate makes into it, the GPU device /
  surface side of wgpu is represented by the dimension state the crate itself
  computes and stores, and the fallible GPU-context construction is driven by
  a boolean oracle (`gpuOk`) on each frame callback.
-/

namespace MasonryBaseview

/-! ## baseview input model (the host side of src/event.rs) -/

namespace baseview

/-- baseview::MouseButton -/
inductive MouseButton
  | Left
  | Right
  | Middle
  | Back
  | Forward
  | Other (code : Nat)
deriving DecidableEq

/-- baseview::ScrollDelta (Lines are f32 in the source, Pixels f64; both ℚ here) -/
inductive ScrollDelta
  | Lines (x y : ℚ)
  | Pixels (x y : ℚ)
deriving DecidableEq

end baseview

/-- keyboard_types::Modifiers, restricted to the four flags the crate reads
(SHIFT, CONTROL, ALT, META); the remaining flags are never inspected. -/
structure KbModifiers where
  shift : Bool
  control : Bool
  alt : Bool
  meta : Bool
deriving DecidableEq

/-- keyboard_types::KeyboardEvent: the crate only reads `modifiers` and passes
the event through unchanged, so the rest of the payload is one opaque field. -/
structure KeyboardEvent where
  key : Nat
  modifiers : KbModifiers
deriving DecidableEq

/-! ## masonry pointer model (the widget-tree side of src/event.rs) -/

namespace masonry

/-- masonry::core::PointerButton -/
inductive PointerButton
  | Primary
  | Secondary
  | Auxiliary
  | X1
  | X2
deriving DecidableEq

/-- masonry::core::pointer::PointerButtons — a bit-set over the five buttons. -/
structure PointerButtons where
  primary : Bool
  secondary : Bool
  auxiliary : Bool
  x1 : Bool
  x2 : Bool
deriving DecidableEq

/-- PointerButtons::default(): the empty set. -/
def PointerButtons.default : PointerButtons :=
  ⟨false, false, false, false, false⟩

/-- `buttons |= btn` in the source: insert one button into the set. -/
def PointerButtons.insert (s : PointerButtons) : PointerButton → PointerButtons
  | .Primary => { s with primary := true }
  | .Secondary => { s with secondary := true }
  | .Auxiliary => { s with auxiliary := true }
  | .X1 => { s with x1 := true }
  | .X2 => { s with x2 := true }

/-- `buttons.remove(btn)` in the source. -/
def PointerButtons.remove (s : PointerButtons) : PointerButton → PointerButtons
  | .Primary => { s with primary := false }
  | .Secondary => { s with secondary := false }
  | .Auxiliary => { s with auxiliary := false }
  | .X1 => { s with x1 := false }
  | .X2 => { s with x2 := false }

/-- Membership in the button set. -/
def PointerButtons.contains (s : PointerButtons) : PointerButton → Bool
  | .Primary => s.primary
  | .Secondary => s.secondary
  | .Auxiliary => s.auxiliary
  | .X1 => s.x1
  | .X2 => s.x2

/-- masonry::core::Modifiers, restricted to the four flags the crate builds. -/
structure Modifiers where
  shift : Bool
  control : Bool
  alt : Bool
  meta : Bool
deriving DecidableEq

/-- Modifiers::empty() -/
def Modifiers.empty : Modifiers :=
  ⟨false, false, false, false⟩

/-- masonry::dpi::PhysicalPosition<f64> -/
structure PhysicalPosition where
  x : ℚ
  y : ℚ
deriving DecidableEq

/-- masonry::dpi::PhysicalSize<f64> -/
structure PhysicalSize where
  width : ℚ
  height : ℚ
deriving DecidableEq

/-- masonry::core::PointerType (only Mouse is produced by this crate). -/
inductive PointerType
  | Mouse
  | Pen
  | Touch
deriving DecidableEq

/-- masonry::core::PointerId; PRIMARY is its distinguished constant. -/
abbrev PointerId := Nat

def PointerId.PRIMARY : PointerId := 1

/-- masonry::core::PointerInfo -/
structure PointerInfo where
  pointer_id : Option PointerId
  persistent_device_id : Option Nat
  pointer_type : PointerType
deriving DecidableEq

/-- masonry::core::PointerState. `orientation` is an inert
`Default::default()` payload in the source, embedded as a single field. -/
structure PointerState where
  time : Nat
  position : PhysicalPosition
  buttons : PointerButtons
  modifiers : Modifiers
  count : Nat
  contact_geometry : PhysicalSize
  orientation : ℚ
  pressure : ℚ
  tangential_pressure : ℚ
  scale_factor : ℚ
deriving DecidableEq

/-- masonry::core::PointerUpdate -/
structure PointerUpdate where
  pointer : PointerInfo
  current : PointerState
  coalesced : List PointerState
  predicted : List PointerState
deriving DecidableEq

/-- masonry::core::PointerButtonEvent -/
structure PointerButtonEvent where
  button : Option PointerButton
  pointer : PointerInfo
  state : PointerState
deriving DecidableEq

/-- masonry::core::ScrollDelta -/
inductive ScrollDelta
  | LineDelta (x y : ℚ)
  | PixelDelta (p : PhysicalPosition)
deriving DecidableEq

/-- masonry::core::PointerScrollEvent -/
structure PointerScrollEvent where
  pointer : PointerInfo
  state : PointerState
  delta : ScrollDelta
deriving DecidableEq

/-- masonry::core::PointerEvent -/
inductive PointerEvent
  | Move (u : PointerUpdate)
  | Down (e : PointerButtonEvent)
  | Up (e : PointerButtonEvent)
  | Scroll (e : PointerScrollEvent)
  | Enter (i : PointerInfo)
  | Leave (i : PointerInfo)
deriving DecidableEq

end masonry

namespace baseview

/-- baseview's window info as read by the crate: physical size (u32 pair)
and the scale factor reported by `info.scale()`. -/
structure WindowInfo where
  physical_width : Nat
  physical_height : Nat
  scale : ℚ
deriving DecidableEq

/-- baseview::MouseEvent. The drag variants are the ones the translator's
wildcard arm drops ("Drag events not yet implemented"). -/
inductive MouseEvent
  | CursorMoved (position : masonry.PhysicalPosition) (modifiers : KbModifiers)
  | ButtonPressed (button : MouseButton) (modifiers : KbModifiers)
  | ButtonReleased (button : MouseButton) (modifiers : KbModifiers)
  | WheelScrolled (delta : ScrollDelta) (modifiers : KbModifiers)
  | CursorEntered
  | CursorLeft
  | DragEntered (position : masonry.PhysicalPosition) (modifiers : KbModifiers)
  | DragMoved (position : masonry.PhysicalPosition) (modifiers : KbModifiers)
  | DragLeft
  | DragDropped (position : masonry.PhysicalPosition) (modifiers : KbModifiers)
deriving DecidableEq

/-- baseview::WindowEvent -/
inductive WindowEvent
  | Resized (info : WindowInfo)
  | Focused
  | Unfocused
  | WillClose
deriving DecidableEq

/-- baseview::Event -/
inductive Event
  | Mouse (e : MouseEvent)
  | Keyboard (e : KeyboardEvent)
  | Window (e : WindowEvent)
deriving DecidableEq

end baseview

/-! ## src/event.rs -/

/-- `translate_mouse_button`: fixed total mapping from baseview to masonry
buttons; unrecognized codes fall back to Primary. -/
def translate_mouse_button : baseview.MouseButton → masonry.PointerButton
  | .Left => .Primary
  | .Right => .Secondary
  | .Middle => .Auxiliary
  | .Back => .X1
  | .Forward => .X2
  | .Other _ => .Primary

/-- `translate_modifiers`: copy the four modifier flags. -/
def translate_modifiers (mods : KbModifiers) : masonry.Modifiers :=
  { shift := mods.shift
    control := mods.control
    alt := mods.alt
    meta := mods.meta }

/-- `MasonryEvent` from src/event.rs. -/
inductive MasonryEvent
  | Pointer (e : masonry.PointerEvent)
  | Keyboard (e : KeyboardEvent)
  | Resize (width height scale : ℚ)
  | Focus (focused : Bool)
  | Close
deriving DecidableEq

/-- `EventTranslator`: pointer state kept between events. `start_time` is the
creation instant of the translator (`std::time::Instant::now()`). -/
structure EventTranslator where
  pointer_x : ℚ
  pointer_y : ℚ
  buttons : masonry.PointerButtons
  modifiers : masonry.Modifiers
  scale_factor : ℚ
  start_time : Nat
deriving DecidableEq

/-- `EventTranslator::new(scale_factor)`, created at instant `now`. -/
def EventTranslator.new (scale_factor : ℚ) (now : Nat) : EventTranslator :=
  { pointer_x := 0
    pointer_y := 0
    buttons := masonry.PointerButtons.default
    modifiers := masonry.Modifiers.empty
    scale_factor := scale_factor
    start_time := now }

/-- `EventTranslator::set_scale_factor` -/
def EventTranslator.set_scale_factor (t : EventTranslator) (scale : ℚ) : EventTranslator :=
  { t with scale_factor := scale }

/-- `get_time_nanos`: elapsed nanoseconds since the translator was created. -/
def EventTranslator.get_time_nanos (t : EventTranslator) (now : Nat) : Nat :=
  now - t.start_time

/-- `make_pointer_info` -/
def EventTranslator.make_pointer_info (_t : EventTranslator) : masonry.PointerInfo :=
  { pointer_id := some masonry.PointerId.PRIMARY
    persistent_device_id := none
    pointer_type := .Mouse }

/-- `make_pointer_state`: the snapshot emitted with move/down/up/scroll
events; the position is the stored logical position times the scale factor. -/
def EventTranslator.make_pointer_state (t : EventTranslator) (now : Nat) : masonry.PointerState :=
  { time := t.get_time_nanos now
    position := ⟨t.pointer_x * t.scale_factor, t.pointer_y * t.scale_factor⟩
    buttons := t.buttons
    modifiers := t.modifiers
    count := 1
    contact_geometry := ⟨1, 1⟩
    orientation := 0
    pressure := 0
    tangential_pressure := 0
    scale_factor := t.scale_factor }

/-- `translate_mouse`: the mouse arm of the translator. Drag events fall to
the wildcard arm and yield nothing. -/
def EventTranslator.translate_mouse (t : EventTranslator) (now : Nat) :
    baseview.MouseEvent → EventTranslator × Option MasonryEvent
  | .CursorMoved position modifiers =>
      let t := { t with
        pointer_x := position.x / t.scale_factor
        pointer_y := position.y / t.scale_factor
        modifiers := translate_modifiers modifiers }
      let update : masonry.PointerUpdate :=
        { pointer := t.make_pointer_info
          current := t.make_pointer_state now
          coalesced := []
          predicted := [] }
      (t, some (.Pointer (.Move update)))
  | .ButtonPressed button modifiers =>
      let t := { t with modifiers := translate_modifiers modifiers }
      let btn := translate_mouse_button button
      let t := { t with buttons := t.buttons.insert btn }
      let event : masonry.PointerButtonEvent :=
        { button := some btn
          pointer := t.make_pointer_info
          state := t.make_pointer_state now }
      (t, some (.Pointer (.Down event)))
  | .ButtonReleased button modifiers =>
      let t := { t with modifiers := translate_modifiers modifiers }
      let btn := translate_mouse_button button
      let t := { t with buttons := t.buttons.remove btn }
      let event : masonry.PointerButtonEvent :=
        { button := some btn
          pointer := t.make_pointer_info
          state := t.make_pointer_state now }
      (t, some (.Pointer (.Up event)))
  | .WheelScrolled delta modifiers =>
      let t := { t with modifiers := translate_modifiers modifiers }
      let scroll_delta : masonry.ScrollDelta :=
        match delta with
        | .Lines x y => .LineDelta x y
        | .Pixels x y => .PixelDelta ⟨x, y⟩
      let event : masonry.PointerScrollEvent :=
        { pointer := t.make_pointer_info
          state := t.make_pointer_state now
          delta := scroll_delta }
      (t, some (.Pointer (.Scroll event)))
  | .CursorEntered => (t, some (.Pointer (.Enter t.make_pointer_info)))
  | .CursorLeft => (t, some (.Pointer (.Leave t.make_pointer_info)))
  | .DragEntered _ _ => (t, none)
  | .DragMoved _ _ => (t, none)
  | .DragLeft => (t, none)
  | .DragDropped _ _ => (t, none)

/-- `translate_keyboard`: update modifiers, pass the event through. -/
def EventTranslator.translate_keyboard (t : EventTranslator) (event : KeyboardEvent) :
    EventTranslator × Option MasonryEvent :=
  ({ t with modifiers := translate_modifiers event.modifiers },
   some (.Keyboard event))

/-- `translate_window`: resize updates the scale factor and is emitted with
physical size and scale; focus and close are emitted with no state change. -/
def EventTranslator.translate_window (t : EventTranslator) :
    baseview.WindowEvent → EventTranslator × Option MasonryEvent
  | .Resized info =>
      ({ t with scale_factor := info.scale },
       some (.Resize (info.physical_width : ℚ) (info.physical_height : ℚ) info.scale))
  | .Focused => (t, some (.Focus true))
  | .Unfocused => (t, some (.Focus false))
  | .WillClose => (t, some .Close)

/-- `translate`: dispatch one host event. -/
def EventTranslator.translate (t : EventTranslator) (now : Nat) :
    baseview.Event → EventTranslator × Option MasonryEvent
  | .Mouse mouse => t.translate_mouse now mouse
  | .Keyboard kb => t.translate_keyboard kb
  | .Window win => t.translate_window win

/-! ## src/render.rs

The GPU side of `RenderContext` (instance, adapter, device, surface, shader,
pipeline, sampler) lives behind wgpu and is opaque to the dimension logic the
claims are about; the embedding keeps exactly the state the crate computes
and stores itself: the surface configuration dimensions and the dimensions
of the intermediate (offscreen) target texture, both subject to the
`.max(1)` clamping of `RenderContext::new` and `RenderContext::resize`. -/

/-- The width/height part of wgpu::SurfaceConfiguration as set by the crate
(format, present mode and alpha mode are negotiated with the external
adapter and never re-read by the dimension logic). -/
structure SurfaceConfiguration where
  width : Nat
  height : Nat
deriving DecidableEq

/-- The extent of a created texture (the crate creates its offscreen target
with `depth_or_array_layers = 1`, mip level 1, sample count 1). -/
structure Texture where
  width : Nat
  height : Nat
deriving DecidableEq

/-- `create_target_texture(device, width, height, format)`: allocates the
intermediate texture at exactly the given extent. -/
def create_target_texture (width height : Nat) : Texture :=
  ⟨width, height⟩

/-- `RenderContext`: the dimension state of the rendering pipeline. -/
structure RenderContext where
  surface_config : SurfaceConfiguration
  target_texture : Texture
deriving DecidableEq

/-- `RenderContext::new(window, width, height)`, dimension bookkeeping:
clamp each dimension to a minimum of 1, configure the surface at the clamped
size, allocate the offscreen target at the same size. -/
def RenderContext.new (width height : Nat) : RenderContext :=
  let width := max width 1
  let height := max height 1
  { surface_config := ⟨width, height⟩
    target_texture := create_target_texture width height }

/-- `RenderContext::resize`: clamp to a minimum of 1, reconfigure the
surface, recreate the intermediate texture at the new size. -/
def RenderContext.resize (_ctx : RenderContext) (width height : Nat) : RenderContext :=
  let width := max width 1
  let height := max height 1
  { surface_config := ⟨width, height⟩
    target_texture := create_target_texture width height }

/-- An opaque drawable scene (vello::Scene); `Scene::new()` is scene 0. -/
abbrev Scene := Nat

/-- vello::peniko::Color (8-bit rgba). -/
structure Color where
  r : Nat
  g : Nat
  b : Nat
  a : Nat
deriving DecidableEq

/-- The observable content of one `RenderContext::render` call: the scene
rendered into the offscreen target and composited onto the presentable
surface at the current configured size. -/
structure Submission where
  scene : Scene
  base_color : Color
  width : Nat
  height : Nat
deriving DecidableEq

/-- `RenderContext::render(scene, base_color)`: renders at the current
surface-configuration size, blits and presents. Surface-acquire or submit
failures come from the external GPU and only affect whether this submission
reaches the screen, not whether the crate attempted it. -/
def RenderContext.render (ctx : RenderContext) (scene : Scene) (base_color : Color) : Submission :=
  { scene := scene
    base_color := base_color
    width := ctx.surface_config.width
    height := ctx.surface_config.height }

/-! ## src/window.rs -/

/-- An opaque widget (the value a widget builder would construct). -/
abbrev Widget := Nat

/-- masonry::core::WindowEvent — the three window-level events this crate
sends into the widget tree. -/
inductive MasonryWindowEvent
  | Resize (width height : Nat)
  | Rescale (scale : ℚ)
  | AnimFrame (dt : Nat)
deriving DecidableEq

/-- The external masonry RenderRoot, embedded at its call boundary as the
widget it was built from, a log of the calls this crate makes into it, and
its current drawable scene. -/
structure RenderRoot where
  widget : Widget
  pointer_events : List masonry.PointerEvent
  window_events : List MasonryWindowEvent
  scene : Scene
deriving DecidableEq

/-- `RenderRoot::new(new_widget, ..)` as invoked by `ensure_initialized`. -/
def RenderRoot.new (widget : Widget) : RenderRoot :=
  { widget := widget, pointer_events := [], window_events := [], scene := 0 }

/-- `render_root.handle_pointer_event(e)`: delivery of one pointer event. -/
def RenderRoot.handle_pointer_event (r : RenderRoot) (e : masonry.PointerEvent) : RenderRoot :=
  { r with pointer_events := r.pointer_events ++ [e] }

/-- `render_root.handle_window_event(e)`: delivery of one window event. -/
def RenderRoot.handle_window_event (r : RenderRoot) (e : MasonryWindowEvent) : RenderRoot :=
  { r with window_events := r.window_events ++ [e] }

/-- `render_root.redraw()`: the widget tree's current drawable scene. -/
def RenderRoot.redraw (r : RenderRoot) : RenderRoot × Scene :=
  (r, r.scene)

/-- The Rust cast `f64 as u32`: truncate toward zero, saturate at 0 and
u32::MAX. (For q ≥ 0 truncation toward zero and floor agree, and toNat sends
every negative result to 0, matching the saturation at 0.) -/
def asU32 (q : ℚ) : Nat :=
  min (Int.toNat ⌊q⌋) (2 ^ 32 - 1)

/-- baseview::EventStatus as returned by `on_event`. -/
inductive EventStatus
  | Captured
  | Ignored
deriving DecidableEq

/-- `MasonryHandler`: the per-window session state. The one-shot widget
builder is embedded as the widget it will construct, held in the same
`Option` slot the source consumes with `.take()`. -/
structure MasonryHandler where
  widget_builder : Option Widget
  render_root : Option RenderRoot
  render_ctx : Option RenderContext
  event_translator : EventTranslator
  scene : Scene
  last_frame : Nat
  base_color : Color
  width : ℚ
  height : ℚ
deriving DecidableEq

/-- `MasonryHandler::new(widget_builder, width, height)` at instant `now`. -/
def MasonryHandler.new (widget_builder : Widget) (width height : ℚ) (now : Nat) : MasonryHandler :=
  { widget_builder := some widget_builder
    render_root := none
    render_ctx := none
    event_translator := EventTranslator.new 1 now
    scene := 0
    last_frame := now
    base_color := ⟨30, 30, 35, 255⟩
    width := width
    height := height }

/-- The second half of `ensure_initialized`: if the render root is absent
and the builder slot still holds the builder, take it, invoke it and build
the RenderRoot. Returns the handler and the number of builder invocations
performed (the instrumented call counter for this call: 1 exactly when the
source line `let widget = builder();` runs). -/
def MasonryHandler.init_render_root (h : MasonryHandler) : MasonryHandler × Nat :=
  if h.render_root.isNone then
    match h.widget_builder with
    | some builder =>
        ({ h with
            widget_builder := none
            render_root := some (RenderRoot.new builder) }, 1)
    | none => (h, 0)
  else (h, 0)

/-- `ensure_initialized(window)`: first attempt GPU-context creation if it
is absent (`gpuOk` is the outcome of the external, fallible
`RenderContext::new`; on failure the source logs and returns early, so the
widget-tree phase is not reached that frame), then build the render root
from the one-shot builder. Returns the builder-invocation count. -/
def MasonryHandler.ensure_initialized (h : MasonryHandler) (gpuOk : Bool) : MasonryHandler × Nat :=
  if h.render_ctx.isNone then
    if gpuOk then
      let h := { h with
        render_ctx := some (RenderContext.new (asU32 h.width) (asU32 h.height)) }
      h.init_render_root
    else
      (h, 0)
  else
    h.init_render_root

/-- `handle_masonry_event`: dispatch one translated event into the widget
tree. The whole body is guarded by the presence of the render root. -/
def MasonryHandler.handle_masonry_event (h : MasonryHandler) (event : MasonryEvent) : MasonryHandler :=
  match h.render_root with
  | none => h
  | some render_root =>
    match event with
    | .Pointer ptr_event =>
        { h with render_root := some (render_root.handle_pointer_event ptr_event) }
    | .Keyboard _ => h
    | .Resize width height scale =>
        let h := { h with
          width := width / scale
          height := height / scale
          event_translator := h.event_translator.set_scale_factor scale }
        let h :=
          match h.render_ctx with
          | some ctx =>
              { h with render_ctx := some (ctx.resize (asU32 width) (asU32 height)) }
          | none => h
        let render_root :=
          (render_root.handle_window_event (.Resize (asU32 width) (asU32 height))).handle_window_event
            (.Rescale scale)
        { h with render_root := some render_root }
    | .Focus _ => h
    | .Close => h

/-- `render_frame` at instant `now`: skip entirely unless both the render
root and the GPU context are present; otherwise deliver the animation tick,
redraw, store the scene and submit it. Returns the submission, if any. -/
def MasonryHandler.render_frame (h : MasonryHandler) (now : Nat) : MasonryHandler × Option Submission :=
  match h.render_root, h.render_ctx with
  | some render_root, some render_ctx =>
      let dt := now - h.last_frame
      let render_root := render_root.handle_window_event (.AnimFrame dt)
      let (render_root, scene) := render_root.redraw
      let h := { h with
        render_root := some render_root
        last_frame := now
        scene := scene }
      (h, some (render_ctx.render h.scene h.base_color))
  | _, _ => (h, none)

/-- `WindowHandler::on_frame`: initialize then render. Returns the handler,
the builder-invocation count of this callback and the submission, if any. -/
def MasonryHandler.on_frame (h : MasonryHandler) (gpuOk : Bool) (now : Nat) :
    MasonryHandler × Nat × Option Submission :=
  let (h, calls) := h.ensure_initialized gpuOk
  let (h, sub) := h.render_frame now
  (h, calls, sub)

/-- `WindowHandler::on_event`: translate, and if a masonry event results,
handle it and report Captured; otherwise report Ignored. -/
def MasonryHandler.on_event (h : MasonryHandler) (now : Nat) (event : baseview.Event) :
    MasonryHandler × EventStatus :=
  match h.event_translator.translate now event with
  | (t, some masonry_event) =>
      (({ h with event_translator := t }).handle_masonry_event masonry_event, .Captured)
  | (t, none) => ({ h with event_translator := t }, .Ignored)

/-- One host callback: either a frame callback (with the outcome of any GPU
context creation attempted during it) or an input-event callback. -/
inductive Callback
  | frame (gpuOk : Bool) (now : Nat)
  | input (now : Nat) (event : baseview.Event)

/-- One callback step; returns the builder-invocation count of the step. -/
def MasonryHandler.step (h : MasonryHandler) : Callback → MasonryHandler × Nat
  | .frame gpuOk now =>
      let (h, calls, _) := h.on_frame gpuOk now
      (h, calls)
  | .input now event =>
      let (h, _) := h.on_event now event
      (h, 0)

/-- Run a whole callback sequence, accumulating builder invocations. -/
def runCallbacks (h : MasonryHandler) : List Callback → MasonryHandler × Nat
  | [] => (h, 0)
  | c :: cs =>
      let (h1, n) := h.step c
      let (h2, m) := runCallbacks h1 cs
      (h2, n + m)

/-! ## Derived definitions used to state the specification properties -/

/-- keyboard_types Modifiers::empty(). -/
def KbModifiers.empty : KbModifiers :=
  ⟨false, false, false, false⟩

/-- Feed a sequence of cursor-move inputs (each with its delivery instant,
physical position and modifier state) through the translator. -/
def runMoves (t : EventTranslator) :
    List (Nat × masonry.PhysicalPosition × KbModifiers) → EventTranslator
  | [] => t
  | (now, pos, mods) :: rest =>
      runMoves (t.translate_mouse now (.CursorMoved pos mods)).1 rest

/-- Feed a sequence of raw mouse events through the translator, keeping only
the final state. -/
def runMouse (t : EventTranslator) : List (Nat × baseview.MouseEvent) → EventTranslator
  | [] => t
  | (now, m) :: rest => runMouse (t.translate_mouse now m).1 rest

/-- Feed a sequence of raw host events through the translator, collecting the
normalized events it yields, in order. -/
def runTranslate (t : EventTranslator) :
    List (Nat × baseview.Event) → EventTranslator × List MasonryEvent
  | [] => (t, [])
  | (now, e) :: rest =>
      let (t1, out) := t.translate now e
      let (t2, outs) := runTranslate t1 rest
      (t2, out.toList ++ outs)

/-- The pointer-state snapshot position carried by a normalized pointer
event, when it has one (enter/leave carry no positional state). -/
def MasonryEvent.pointerStatePosition : MasonryEvent → Option masonry.PhysicalPosition
  | .Pointer (.Move u) => some u.current.position
  | .Pointer (.Down e) => some e.state.position
  | .Pointer (.Up e) => some e.state.position
  | .Pointer (.Scroll e) => some e.state.position
  | _ => none

/-- The pressed-button set carried by a normalized pointer event's
pointer-state snapshot, when it has one. -/
def MasonryEvent.pointerStateButtons : MasonryEvent → Option masonry.PointerButtons
  | .Pointer (.Move u) => some u.current.buttons
  | .Pointer (.Down e) => some e.state.buttons
  | .Pointer (.Up e) => some e.state.buttons
  | .Pointer (.Scroll e) => some e.state.buttons
  | _ => none

/-- The variant of a normalized event, for stating order-of-events facts. -/
inductive EventTag
  | enter
  | move
  | down
  | up
  | scroll
  | leave
  | key
  | resize
  | focus
  | close
deriving DecidableEq

/-- Project a normalized event to its variant tag. -/
def MasonryEvent.tag : MasonryEvent → EventTag
  | .Pointer (.Move _) => .move
  | .Pointer (.Down _) => .down
  | .Pointer (.Up _) => .up
  | .Pointer (.Scroll _) => .scroll
  | .Pointer (.Enter _) => .enter
  | .Pointer (.Leave _) => .leave
  | .Keyboard _ => .key
  | .Resize _ _ _ => .resize
  | .Focus _ => .focus
  | .Close => .close

/-- The drag-gesture mouse events — the ones the translator's wildcard arm
drops. -/
def MouseEventIsDrag : baseview.MouseEvent → Bool
  | .DragEntered _ _ => true
  | .DragMoved _ _ => true
  | .DragLeft => true
  | .DragDropped _ _ => true
  | _ => false

/-- Mouse events that touch neither the pressed-button set nor the scale
factor: pointer moves and wheel scrolls. -/
def MouseEventIsMoveOrScroll : baseview.MouseEvent → Bool
  | .CursorMoved _ _ => true
  | .WheelScrolled _ _ => true
  | _ => false

/-- The fixed input sequence of the spec's fifth testable property: enter,
move to (10,10), button-down primary, move to (20,15), button-up primary,
leave — delivered to a fresh translator at scale factor 1.0. -/
def fixedInputSequence : List (Nat × baseview.Event) :=
  [ (0, .Mouse .CursorEntered)
  , (1, .Mouse (.CursorMoved ⟨10, 10⟩ KbModifiers.empty))
  , (2, .Mouse (.ButtonPressed .Left KbModifiers.empty))
  , (3, .Mouse (.CursorMoved ⟨20, 15⟩ KbModifiers.empty))
  , (4, .Mouse (.ButtonReleased .Left KbModifiers.empty))
  , (5, .Mouse .CursorLeft) ]

/-! ## Helper lemmas -/

theorem translate_mouse_move_fst (t : EventTranslator) (now : Nat)
    (pos : masonry.PhysicalPosition) (mods : KbModifiers) :
    (t.translate_mouse now (.CursorMoved pos mods)).1 =
      { t with
        pointer_x := pos.x / t.scale_factor
        pointer_y := pos.y / t.scale_factor
        modifiers := translate_modifiers mods } := rfl

theorem translate_mouse_scroll_fst (t : EventTranslator) (now : Nat)
    (delta : baseview.ScrollDelta) (mods : KbModifiers) :
    (t.translate_mouse now (.WheelScrolled delta mods)).1 =
      { t with modifiers := translate_modifiers mods } := rfl

theorem translate_mouse_pressed_fst (t : EventTranslator) (now : Nat)
    (btn : baseview.MouseButton) (mods : KbModifiers) :
    (t.translate_mouse now (.ButtonPressed btn mods)).1 =
      { t with
        modifiers := translate_modifiers mods
        buttons := t.buttons.insert (translate_mouse_button btn) } := rfl

theorem translate_mouse_released_fst (t : EventTranslator) (now : Nat)
    (btn : baseview.MouseButton) (mods : KbModifiers) :
    (t.translate_mouse now (.ButtonReleased btn mods)).1 =
      { t with
        modifiers := translate_modifiers mods
        buttons := t.buttons.remove (translate_mouse_button btn) } := rfl

theorem runMoves_scale_factor (ms : List (Nat × masonry.PhysicalPosition × KbModifiers)) :
    ∀ t : EventTranslator, (runMoves t ms).scale_factor = t.scale_factor := by
  induction ms with
  | nil => intro t; rfl
  | cons m rest ih =>
      intro t
      obtain ⟨now, pos, mods⟩ := m
      rw [runMoves, ih, translate_mouse_move_fst]

theorem runMoves_getLast (ms : List (Nat × masonry.PhysicalPosition × KbModifiers)) :
    ∀ (t : EventTranslator) (now : Nat) (pos : masonry.PhysicalPosition) (mods : KbModifiers),
      ms.getLast? = some (now, pos, mods) →
      (runMoves t ms).pointer_x = pos.x / t.scale_factor ∧
      (runMoves t ms).pointer_y = pos.y / t.scale_factor := by
  induction ms with
  | nil => intro t now pos mods hlast; simp at hlast
  | cons m rest ih =>
      intro t now pos mods hlast
      obtain ⟨n0, p0, md0⟩ := m
      cases rest with
      | nil =>
          simp only [List.getLast?_singleton, Option.some.injEq, Prod.mk.injEq] at hlast
          obtain ⟨h1, h2, h3⟩ := hlast
          subst h2
          rw [runMoves, runMoves, translate_mouse_move_fst]
          exact ⟨rfl, rfl⟩
      | cons b rest2 =>
          rw [runMoves]
          have hlast2 : (b :: rest2).getLast? = some (now, pos, mods) := by
            simpa [List.getLast?_cons_cons] using hlast
          have := ih (t.translate_mouse n0 (.CursorMoved p0 md0)).1 now pos mods hlast2
          rwa [translate_mouse_move_fst] at this

/-! ## Claim theorems -/

/-- C3: for every sequence of pointer-move events, the stored logical
position after translating the sequence equals the physical position carried
by the last move event divided by the scale factor the translator held when
that event was delivered (pointer moves never change the scale factor, so
that is the translator's scale factor throughout the sequence). -/
theorem moves_store_last_position_div_scale (t : EventTranslator)
    (ms : List (Nat × masonry.PhysicalPosition × KbModifiers))
    (now : Nat) (pos : masonry.PhysicalPosition) (mods : KbModifiers)
    (hlast : ms.getLast? = some (now, pos, mods)) :
    (runMoves t ms).pointer_x = pos.x / t.scale_factor ∧
    (runMoves t ms).pointer_y = pos.y / t.scale_factor ∧
    (runMoves t ms).scale_factor = t.scale_factor := by
  obtain ⟨hx, hy⟩ := runMoves_getLast ms t now pos mods hlast
  exact ⟨hx, hy, runMoves_scale_factor ms t⟩

/-- Witness for C3: two moves at scale factor 2; the stored position is the
last physical position (6, 8) divided by 2. -/
theorem moves_store_last_position_div_scale_witness :
    ([(0, (⟨1, 1⟩ : masonry.PhysicalPosition), KbModifiers.empty),
      (1, ⟨6, 8⟩, KbModifiers.empty)].getLast? = some (1, ⟨6, 8⟩, KbModifiers.empty)) ∧
    (runMoves (EventTranslator.new 2 0)
        [(0, ⟨1, 1⟩, KbModifiers.empty), (1, ⟨6, 8⟩, KbModifiers.empty)]).pointer_x = 6 / 2 := by
  refine ⟨by decide, ?_⟩
  exact (moves_store_last_position_div_scale (EventTranslator.new 2 0)
    [(0, ⟨1, 1⟩, KbModifiers.empty), (1, ⟨6, 8⟩, KbModifiers.empty)]
    1 ⟨6, 8⟩ KbModifiers.empty (by decide)).1

/-- C7: resizing to 0×0 produces a 1×1 surface configuration and a 1×1
offscreen target; in general both `RenderContext::resize` and
`RenderContext::new` clamp each dimension to a minimum of 1, so the surface
is never zero-sized. -/
theorem resize_clamps_to_min_one (ctx : RenderContext) (width height : Nat) :
    ((ctx.resize 0 0).surface_config = ⟨1, 1⟩ ∧
     (ctx.resize 0 0).target_texture = ⟨1, 1⟩) ∧
    ((ctx.resize width height).surface_config.width = max width 1 ∧
     (ctx.resize width height).surface_config.height = max height 1 ∧
     (ctx.resize width height).target_texture.width = max width 1 ∧
     (ctx.resize width height).target_texture.height = max height 1 ∧
     1 ≤ (ctx.resize width height).surface_config.width ∧
     1 ≤ (ctx.resize width height).surface_config.height) ∧
    ((RenderContext.new width height).surface_config.width = max width 1 ∧
     (RenderContext.new width height).surface_config.height = max height 1 ∧
     (RenderContext.new width height).target_texture.width = max width 1 ∧
     (RenderContext.new width height).target_texture.height = max height 1) := by
  refine ⟨⟨rfl, rfl⟩, ⟨rfl, rfl, rfl, rfl, ?_, ?_⟩, rfl, rfl, rfl, rfl⟩
  · exact Nat.le_max_right width 1
  · exact Nat.le_max_right height 1

/-- C10: a freshly constructed translator stores position (0, 0), the empty
pressed-button set and the empty modifier set, so a button press, button
release or wheel scroll translated before any pointer move reports the
physical origin (0 × scale, 0 × scale) = (0, 0) instead of failing; the
window handler constructs its translator with scale factor 1.0. -/
theorem fresh_translator_reports_origin (s : ℚ) (now t1 : Nat)
    (btn : baseview.MouseButton) (mods : KbModifiers) (delta : baseview.ScrollDelta)
    (w : Widget) (wd ht : ℚ) :
    (EventTranslator.new s now).pointer_x = 0 ∧
    (EventTranslator.new s now).pointer_y = 0 ∧
    (EventTranslator.new s now).buttons = masonry.PointerButtons.default ∧
    (EventTranslator.new s now).modifiers = masonry.Modifiers.empty ∧
    (((EventTranslator.new s now).translate_mouse t1 (.ButtonPressed btn mods)).2.bind
        MasonryEvent.pointerStatePosition = some ⟨0, 0⟩) ∧
    (((EventTranslator.new s now).translate_mouse t1 (.ButtonReleased btn mods)).2.bind
        MasonryEvent.pointerStatePosition = some ⟨0, 0⟩) ∧
    (((EventTranslator.new s now).translate_mouse t1 (.WheelScrolled delta mods)).2.bind
        MasonryEvent.pointerStatePosition = some ⟨0, 0⟩) ∧
    (MasonryHandler.new w wd ht now).event_translator = EventTranslator.new 1 now := by
  refine ⟨rfl, rfl, rfl, rfl, ?_, ?_, ?_, rfl⟩
  · simp [EventTranslator.translate_mouse, EventTranslator.make_pointer_state,
      EventTranslator.new, MasonryEvent.pointerStatePosition]
  · simp [EventTranslator.translate_mouse, EventTranslator.make_pointer_state,
      EventTranslator.new, MasonryEvent.pointerStatePosition]
  · cases delta <;>
      simp [EventTranslator.translate_mouse, EventTranslator.make_pointer_state,
        EventTranslator.new, MasonryEvent.pointerStatePosition]

/-- C4 counterexample: the fixed six-input sequence (enter, move, down,
move, up, leave) does not yield 5 normalized events — every one of the six
inputs translates to an event, so 6 are yielded. -/
theorem fixed_sequence_not_five_events :
    (runTranslate (EventTranslator.new 1 0) fixedInputSequence).2.length ≠ 5 := by decide

/-- C4 amended: the fixed input sequence yields exactly 6 normalized events,
in order enter, move, down, move, up, leave; the down event reports
pressed-button set {primary} and the up event reports the empty set. -/
theorem fixed_sequence_six_events :
    (runTranslate (EventTranslator.new 1 0) fixedInputSequence).2.length = 6 ∧
    (runTranslate (EventTranslator.new 1 0) fixedInputSequence).2.map MasonryEvent.tag
      = [.enter, .move, .down, .move, .up, .leave] ∧
    (runTranslate (EventTranslator.new 1 0) fixedInputSequence).2.map
        MasonryEvent.pointerStateButtons
      = [none, some masonry.PointerButtons.default,
         some ⟨true, false, false, false, false⟩,
         some ⟨true, false, false, false, false⟩,
         some masonry.PointerButtons.default, none] := by
  refine ⟨by decide, by decide, by decide⟩

/-! Helper lemmas for the pressed-button set. -/

theorem PointerButtons.remove_insert (s : masonry.PointerButtons) (b : masonry.PointerButton)
    (hnot : s.contains b = false) : (s.insert b).remove b = s := by
  obtain ⟨p, sc, a, x1, x2⟩ := s
  cases b <;>
    simp_all [masonry.PointerButtons.insert, masonry.PointerButtons.remove,
      masonry.PointerButtons.contains]

theorem translate_mouse_moveOrScroll_buttons (t : EventTranslator) (now : Nat)
    (m : baseview.MouseEvent) (hm : MouseEventIsMoveOrScroll m = true) :
    (t.translate_mouse now m).1.buttons = t.buttons := by
  cases m <;> simp_all [MouseEventIsMoveOrScroll, EventTranslator.translate_mouse]

theorem runMouse_moveOrScroll_buttons (l : List (Nat × baseview.MouseEvent)) :
    ∀ t : EventTranslator, (∀ p ∈ l, MouseEventIsMoveOrScroll p.2 = true) →
      (runMouse t l).buttons = t.buttons := by
  induction l with
  | nil => intro t _; rfl
  | cons p rest ih =>
      intro t hl
      obtain ⟨now, m⟩ := p
      rw [runMouse,
        ih _ (fun q hq => hl q (List.mem_cons_of_mem _ hq)),
        translate_mouse_moveOrScroll_buttons t now m (hl (now, m) (List.mem_cons_self _ _))]

theorem runMouse_append (l l' : List (Nat × baseview.MouseEvent)) :
    ∀ t : EventTranslator, runMouse t (l ++ l') = runMouse (runMouse t l) l' := by
  induction l with
  | nil => intro t; rfl
  | cons p rest ih =>
      intro t
      obtain ⟨now, m⟩ := p
      rw [List.cons_append, runMouse, runMouse, ih]

/-- C5 counterexample: when the button is already in the pressed set before
the down, down followed by up does not restore the pre-down set — the
release removes the button outright. Here the set already holds primary, so
after down(Left) then up(Left) the set is empty, not {primary}. -/
theorem down_up_not_restoring_counterexample :
    (runMouse
        { EventTranslator.new 1 0 with buttons := ⟨true, false, false, false, false⟩ }
        [(0, .ButtonPressed .Left KbModifiers.empty),
         (1, .ButtonReleased .Left KbModifiers.empty)]).buttons
      ≠ (⟨true, false, false, false, false⟩ : masonry.PointerButtons) := by decide

/-- C5 amended: for every button identity and every pressed-button set that
does not already contain the mapped button, a button-down followed — after
any interleaving of pointer-move and wheel-scroll events — by a button-up
for the same button leaves the pressed-button set equal to its value before
the down. -/
theorem down_up_restores_buttons (t : EventTranslator) (btn : baseview.MouseButton)
    (mid : List (Nat × baseview.MouseEvent)) (n1 n2 : Nat) (mods1 mods2 : KbModifiers)
    (hmid : ∀ p ∈ mid, MouseEventIsMoveOrScroll p.2 = true)
    (hnot : t.buttons.contains (translate_mouse_button btn) = false) :
    (runMouse t
        ((n1, .ButtonPressed btn mods1) :: (mid ++ [(n2, .ButtonReleased btn mods2)]))).buttons
      = t.buttons := by
  have hbtns : (runMouse (t.translate_mouse n1 (.ButtonPressed btn mods1)).1 mid).buttons
      = t.buttons.insert (translate_mouse_button btn) := by
    rw [runMouse_moveOrScroll_buttons mid _ hmid, translate_mouse_pressed_fst]
  rw [runMouse, runMouse_append, runMouse, runMouse, translate_mouse_released_fst]
  show (runMouse (t.translate_mouse n1 (.ButtonPressed btn mods1)).1 mid).buttons.remove
      (translate_mouse_button btn) = t.buttons
  rw [hbtns]
  exact PointerButtons.remove_insert t.buttons (translate_mouse_button btn) hnot

/-- Witness for C5: empty pre-down set, the Right button, one interleaved
move and one interleaved scroll. -/
theorem down_up_restores_buttons_witness :
    (∀ p ∈ [(1, baseview.MouseEvent.CursorMoved ⟨3, 4⟩ KbModifiers.empty),
            (2, baseview.MouseEvent.WheelScrolled (.Lines 0 1) KbModifiers.empty)],
      MouseEventIsMoveOrScroll p.2 = true) ∧
    ((EventTranslator.new 1 0).buttons.contains (translate_mouse_button .Right) = false) ∧
    (runMouse (EventTranslator.new 1 0)
        ((0, .ButtonPressed .Right KbModifiers.empty) ::
          ([(1, .CursorMoved ⟨3, 4⟩ KbModifiers.empty),
            (2, .WheelScrolled (.Lines 0 1) KbModifiers.empty)] ++
           [(3, .ButtonReleased .Right KbModifiers.empty)]))).buttons
      = (EventTranslator.new 1 0).buttons := by
  refine ⟨by decide, by decide, ?_⟩
  exact down_up_restores_buttons (EventTranslator.new 1 0) .Right
    [(1, .CursorMoved ⟨3, 4⟩ KbModifiers.empty),
     (2, .WheelScrolled (.Lines 0 1) KbModifiers.empty)]
    0 3 KbModifiers.empty KbModifiers.empty (by decide) (by decide)

/-- C6: translating a window-resize event sets the translator's scale factor
to the scale carried by the event and changes nothing else; the emitted
normalized event carries the physical size and the scale; and every pointer
event translated afterwards uses the new scale factor — a move divides the
delivered physical position by it to store the logical position and
multiplies by it for the emitted physical position, and button or scroll
events emit the stored logical position times the new scale factor. -/
theorem resize_updates_translator_scale (t : EventTranslator) (info : baseview.WindowInfo)
    (n1 n2 n3 : Nat) (pos : masonry.PhysicalPosition) (mods : KbModifiers)
    (btn : baseview.MouseButton) (delta : baseview.ScrollDelta) :
    (t.translate_window (.Resized info)).1.scale_factor = info.scale ∧
    (t.translate_window (.Resized info)).1.pointer_x = t.pointer_x ∧
    (t.translate_window (.Resized info)).1.pointer_y = t.pointer_y ∧
    (t.translate_window (.Resized info)).1.buttons = t.buttons ∧
    (t.translate_window (.Resized info)).1.modifiers = t.modifiers ∧
    (t.translate_window (.Resized info)).1.start_time = t.start_time ∧
    (t.translate_window (.Resized info)).2
      = some (.Resize (info.physical_width : ℚ) (info.physical_height : ℚ) info.scale) ∧
    ((t.translate_window (.Resized info)).1.translate_mouse n1
        (.CursorMoved pos mods)).1.pointer_x = pos.x / info.scale ∧
    ((t.translate_window (.Resized info)).1.translate_mouse n1
        (.CursorMoved pos mods)).1.pointer_y = pos.y / info.scale ∧
    (((t.translate_window (.Resized info)).1.translate_mouse n1
        (.CursorMoved pos mods)).2.bind MasonryEvent.pointerStatePosition
      = some ⟨pos.x / info.scale * info.scale, pos.y / info.scale * info.scale⟩) ∧
    (((t.translate_window (.Resized info)).1.translate_mouse n2
        (.ButtonPressed btn mods)).2.bind MasonryEvent.pointerStatePosition
      = some ⟨t.pointer_x * info.scale, t.pointer_y * info.scale⟩) ∧
    (((t.translate_window (.Resized info)).1.translate_mouse n3
        (.WheelScrolled delta mods)).2.bind MasonryEvent.pointerStatePosition
      = some ⟨t.pointer_x * info.scale, t.pointer_y * info.scale⟩) := by
  refine ⟨rfl, rfl, rfl, rfl, rfl, rfl, rfl, rfl, rfl, ?_, ?_, ?_⟩
  · simp [EventTranslator.translate_window, EventTranslator.translate_mouse,
      EventTranslator.make_pointer_state, MasonryEvent.pointerStatePosition]
  · simp [EventTranslator.translate_window, EventTranslator.translate_mouse,
      EventTranslator.make_pointer_state, MasonryEvent.pointerStatePosition]
  · cases delta <;>
      simp [EventTranslator.translate_window, EventTranslator.translate_mouse,
        EventTranslator.make_pointer_state, MasonryEvent.pointerStatePosition]

/-- C9: the per-event callback reports Captured exactly when the translator
yields a normalized event and Ignored exactly when it yields nothing; the
drag-gesture mouse events are precisely the mouse events reported Ignored,
while keyboard and window (focus, resize, close) events are always
Captured. -/
theorem on_event_status_matches_translation (h : MasonryHandler) (now : Nat)
    (e : baseview.Event) :
    ((h.on_event now e).2 = .Captured ↔
      ((h.event_translator.translate now e).2).isSome = true) ∧
    (∀ m : baseview.MouseEvent,
      ((h.on_event now (.Mouse m)).2 = .Ignored ↔ MouseEventIsDrag m = true)) ∧
    (∀ ke : KeyboardEvent, (h.on_event now (.Keyboard ke)).2 = .Captured) ∧
    (∀ we : baseview.WindowEvent, (h.on_event now (.Window we)).2 = .Captured) := by
  refine ⟨?_, ?_, ?_, ?_⟩
  · rcases htr : h.event_translator.translate now e with ⟨t, o⟩
    cases o <;> simp [MasonryHandler.on_event, htr]
  · intro m
    cases m <;>
      simp [MasonryHandler.on_event, EventTranslator.translate,
        EventTranslator.translate_mouse, MouseEventIsDrag]
  · intro ke
    simp [MasonryHandler.on_event, EventTranslator.translate,
      EventTranslator.translate_keyboard]
  · intro we
    cases we <;>
      simp [MasonryHandler.on_event, EventTranslator.translate,
        EventTranslator.translate_window]

/-! Helper lemmas for the window-handler lifecycle. -/

theorem handle_masonry_event_widget_builder (h : MasonryHandler) (ev : MasonryEvent) :
    (h.handle_masonry_event ev).widget_builder = h.widget_builder := by
  rcases hr : h.render_root with _ | root <;> cases ev <;>
    rcases hc : h.render_ctx with _ | ctx <;>
      simp [MasonryHandler.handle_masonry_event, hr, hc]

theorem handle_masonry_event_root_none (h : MasonryHandler) (ev : MasonryEvent)
    (hr : h.render_root = none) : h.handle_masonry_event ev = h := by
  simp [MasonryHandler.handle_masonry_event, hr]

theorem on_event_widget_builder (h : MasonryHandler) (now : Nat) (e : baseview.Event) :
    ((h.on_event now e).1).widget_builder = h.widget_builder := by
  rcases htr : h.event_translator.translate now e with ⟨t, o⟩
  cases o <;> simp [MasonryHandler.on_event, htr, handle_masonry_event_widget_builder]

theorem on_event_root_none (h : MasonryHandler) (now : Nat) (e : baseview.Event)
    (hr : h.render_root = none) : ((h.on_event now e).1).render_root = none := by
  rcases htr : h.event_translator.translate now e with ⟨t, o⟩
  cases o with
  | none => simp only [MasonryHandler.on_event, htr]; exact hr
  | some me =>
      simp only [MasonryHandler.on_event, htr]
      rw [handle_masonry_event_root_none _ me (show ({ h with event_translator := t }
        : MasonryHandler).render_root = none from hr)]
      exact hr

theorem init_render_root_count (h : MasonryHandler) :
    ((h.init_render_root).2 = 1 ∧ h.widget_builder.isSome = true ∧
      ((h.init_render_root).1).widget_builder = none) ∨
    ((h.init_render_root).2 = 0 ∧ (h.init_render_root).1 = h) := by
  cases hroot : h.render_root.isNone <;> rcases hb : h.widget_builder with _ | b
  · right; simp [MasonryHandler.init_render_root, hroot]
  · right; simp [MasonryHandler.init_render_root, hroot]
  · right; simp [MasonryHandler.init_render_root, hroot, hb]
  · left; simp [MasonryHandler.init_render_root, hroot, hb]

theorem init_render_root_wb (h : MasonryHandler) :
    ((h.init_render_root).2 = 1 ∧ h.widget_builder.isSome = true ∧
      ((h.init_render_root).1).widget_builder = none) ∨
    ((h.init_render_root).2 = 0 ∧
      ((h.init_render_root).1).widget_builder = h.widget_builder) := by
  rcases init_render_root_count h with hleft | ⟨hz, heq⟩
  · exact Or.inl hleft
  · exact Or.inr ⟨hz, by rw [heq]⟩

theorem ensure_initialized_count (h : MasonryHandler) (g : Bool) :
    ((h.ensure_initialized g).2 = 1 ∧ h.widget_builder.isSome = true ∧
      ((h.ensure_initialized g).1).widget_builder = none) ∨
    ((h.ensure_initialized g).2 = 0 ∧
      ((h.ensure_initialized g).1).widget_builder = h.widget_builder) := by
  cases hctx : h.render_ctx.isNone <;> cases g <;>
    simp only [MasonryHandler.ensure_initialized, hctx, Bool.false_eq_true,
      if_false, if_true, ite_true, ite_false]
  · exact init_render_root_wb h
  · exact init_render_root_wb h
  · simp
  · exact init_render_root_wb
      { h with render_ctx := some (RenderContext.new (asU32 h.width) (asU32 h.height)) }

theorem render_frame_widget_builder (h : MasonryHandler) (now : Nat) :
    ((h.render_frame now).1).widget_builder = h.widget_builder := by
  rcases hr : h.render_root with _ | root <;> rcases hc : h.render_ctx with _ | ctx <;>
    simp [MasonryHandler.render_frame, hr, hc, RenderRoot.redraw]

theorem render_frame_of_root_none (h : MasonryHandler) (now : Nat)
    (hr : h.render_root = none) : h.render_frame now = (h, none) := by
  simp [MasonryHandler.render_frame, hr]

theorem render_frame_submission_none (h : MasonryHandler) (now : Nat)
    (habs : h.render_root = none ∨ h.render_ctx = none) :
    (h.render_frame now).2 = none := by
  rcases habs with hr | hc
  · simp [MasonryHandler.render_frame, hr]
  · rcases hroot : h.render_root with _ | root
    · simp [MasonryHandler.render_frame, hroot]
    · simp [MasonryHandler.render_frame, hroot, hc]

theorem on_frame_eq (h : MasonryHandler) (g : Bool) (now : Nat) :
    h.on_frame g now =
      ((((h.ensure_initialized g).1).render_frame now).1,
       (h.ensure_initialized g).2,
       (((h.ensure_initialized g).1).render_frame now).2) := by
  rcases hE : h.ensure_initialized g with ⟨h1, n⟩
  rcases hR : h1.render_frame now with ⟨h2, s⟩
  simp [MasonryHandler.on_frame, hE, hR]

theorem step_frame_eq (h : MasonryHandler) (g : Bool) (now : Nat) :
    h.step (.frame g now) = ((h.on_frame g now).1, (h.on_frame g now).2.1) := by
  rcases hO : h.on_frame g now with ⟨h1, n, s⟩
  simp [MasonryHandler.step, hO]

theorem step_input_eq (h : MasonryHandler) (now : Nat) (e : baseview.Event) :
    h.step (.input now e) = ((h.on_event now e).1, 0) := by
  rcases hO : h.on_event now e with ⟨h1, st⟩
  simp [MasonryHandler.step, hO]

theorem step_count (h : MasonryHandler) (c : Callback) :
    ((h.step c).2 = 1 ∧ h.widget_builder.isSome = true ∧
      ((h.step c).1).widget_builder = none) ∨
    ((h.step c).2 = 0 ∧ ((h.step c).1).widget_builder = h.widget_builder) := by
  cases c with
  | frame g now =>
      rw [step_frame_eq, on_frame_eq]
      simp only [render_frame_widget_builder]
      exact ensure_initialized_count h g
  | input now e =>
      rw [step_input_eq]
      exact Or.inr ⟨rfl, on_event_widget_builder h now e⟩

theorem runCallbacks_cons_fst (h : MasonryHandler) (c : Callback) (cs : List Callback) :
    (runCallbacks h (c :: cs)).1 = (runCallbacks (h.step c).1 cs).1 := by
  rcases hs : h.step c with ⟨h1, n⟩
  rcases hr : runCallbacks h1 cs with ⟨h2, m⟩
  simp [runCallbacks, hs, hr]

theorem runCallbacks_count (cs : List Callback) :
    ∀ h : MasonryHandler,
      ((runCallbacks h cs).2 = 1 ∧ h.widget_builder.isSome = true ∧
        ((runCallbacks h cs).1).widget_builder = none) ∨
      ((runCallbacks h cs).2 = 0 ∧
        ((runCallbacks h cs).1).widget_builder = h.widget_builder) := by
  induction cs with
  | nil => intro h; exact Or.inr ⟨rfl, rfl⟩
  | cons c rest ih =>
      intro h
      rcases hs : h.step c with ⟨h1, n⟩
      rcases hr : runCallbacks h1 rest with ⟨h2, m⟩
      have hstep := step_count h c
      rw [hs] at hstep
      have hrest := ih h1
      rw [hr] at hrest
      simp only at hstep hrest
      simp only [runCallbacks, hs, hr]
      rcases hstep with ⟨hn1, hsome, h1none⟩ | ⟨hn0, h1wb⟩
      · rcases hrest with ⟨hm1, hsome1, _⟩ | ⟨hm0, h2wb⟩
        · rw [h1none] at hsome1; simp at hsome1
        · exact Or.inl ⟨by omega, hsome, by rw [h2wb, h1none]⟩
      · rcases hrest with ⟨hm1, hsome1, h2none⟩ | ⟨hm0, h2wb⟩
        · exact Or.inl ⟨by omega, by rw [h1wb] at hsome1; exact hsome1, h2none⟩
        · exact Or.inr ⟨by omega, by rw [h2wb, h1wb]⟩

theorem step_wb_none (h : MasonryHandler) (c : Callback)
    (hn : h.widget_builder = none) : ((h.step c).1).widget_builder = none := by
  rcases step_count h c with ⟨_, hsome, _⟩ | ⟨_, heq⟩
  · rw [hn] at hsome; simp at hsome
  · rw [heq, hn]

theorem runCallbacks_wb_none (cs : List Callback) :
    ∀ h : MasonryHandler, h.widget_builder = none →
      ((runCallbacks h cs).1).widget_builder = none := by
  induction cs with
  | nil => intro h hn; exact hn
  | cons c rest ih =>
      intro h hn
      rw [runCallbacks_cons_fst]
      exact ih _ (step_wb_none h c hn)

theorem init_render_root_inv (h : MasonryHandler)
    (hinv : h.widget_builder.isSome = true → h.render_root = none) :
    ((h.init_render_root).1).widget_builder.isSome = true →
      ((h.init_render_root).1).render_root = none := by
  intro hsome
  rcases init_render_root_count h with ⟨_, _, hnone⟩ | ⟨_, heq⟩
  · rw [hnone] at hsome; simp at hsome
  · rw [heq] at hsome ⊢; exact hinv hsome

theorem ensure_initialized_inv (h : MasonryHandler) (g : Bool)
    (hinv : h.widget_builder.isSome = true → h.render_root = none) :
    ((h.ensure_initialized g).1).widget_builder.isSome = true →
      ((h.ensure_initialized g).1).render_root = none := by
  cases hctx : h.render_ctx.isNone <;> cases g <;>
    simp only [MasonryHandler.ensure_initialized, hctx, Bool.false_eq_true,
      if_false, if_true, ite_true, ite_false]
  · exact init_render_root_inv h hinv
  · exact init_render_root_inv h hinv
  · exact hinv
  · exact init_render_root_inv
      { h with render_ctx := some (RenderContext.new (asU32 h.width) (asU32 h.height)) } hinv

theorem step_inv (h : MasonryHandler) (c : Callback)
    (hinv : h.widget_builder.isSome = true → h.render_root = none) :
    ((h.step c).1).widget_builder.isSome = true → ((h.step c).1).render_root = none := by
  cases c with
  | frame g now =>
      rw [step_frame_eq, on_frame_eq]
      intro hsome
      simp only [render_frame_widget_builder] at hsome
      have hroot := ensure_initialized_inv h g hinv hsome
      rw [render_frame_of_root_none _ now hroot]
      exact hroot
  | input now e =>
      rw [step_input_eq]
      intro hsome
      rw [on_event_widget_builder] at hsome
      exact on_event_root_none h now e (hinv hsome)

theorem step_frame_true_wb_none (h : MasonryHandler) (now : Nat)
    (hinv : h.widget_builder.isSome = true → h.render_root = none) :
    ((h.step (.frame true now)).1).widget_builder = none := by
  rw [step_frame_eq, on_frame_eq]
  simp only [render_frame_widget_builder]
  rcases hb : h.widget_builder with _ | b
  · rcases ensure_initialized_count h true with ⟨_, _, hnone⟩ | ⟨_, heq⟩
    · exact hnone
    · rw [heq, hb]
  · have hroot : h.render_root = none := hinv (by rw [hb]; rfl)
    cases hctx : h.render_ctx.isNone <;>
      simp [MasonryHandler.ensure_initialized, MasonryHandler.init_render_root,
        hctx, hroot, hb]

theorem runCallbacks_mem_frame_true (cs : List Callback) :
    ∀ h : MasonryHandler,
      (h.widget_builder.isSome = true → h.render_root = none) →
      (∃ n, Callback.frame true n ∈ cs) →
      ((runCallbacks h cs).1).widget_builder = none := by
  induction cs with
  | nil => intro h _ hmem; obtain ⟨n, hn⟩ := hmem; simp at hn
  | cons c rest ih =>
      intro h hinv hmem
      obtain ⟨n, hn⟩ := hmem
      rw [runCallbacks_cons_fst]
      rcases List.mem_cons.mp hn with hc | hrest
      · subst hc
        exact runCallbacks_wb_none rest _ (step_frame_true_wb_none h n hinv)
      · exact ih _ (step_inv h c hinv) ⟨n, hrest⟩

/-- C1: a frame is rendered only when both the widget-tree handle
(render_root) and the GPU surface state (render_ctx) are present; in any
frame callback after whose initialization phase either is still absent, no
scene is submitted and no frame is presented. -/
theorem render_skipped_unless_fully_initialized (h : MasonryHandler) (gpuOk : Bool)
    (now : Nat)
    (habs : ((h.ensure_initialized gpuOk).1).render_root = none ∨
            ((h.ensure_initialized gpuOk).1).render_ctx = none) :
    (h.on_frame gpuOk now).2.2 = none := by
  rw [on_frame_eq]
  exact render_frame_submission_none _ now habs

/-- Witness for C1: a fresh window session whose GPU-context creation fails
on the frame callback; the GPU surface state is still absent, and the frame
submits nothing. -/
theorem render_skipped_witness :
    (((MasonryHandler.new 0 800 600 0).ensure_initialized false).1.render_ctx = none) ∧
    ((MasonryHandler.new 0 800 600 0).on_frame false 0).2.2 = none :=
  ⟨rfl, render_skipped_unless_fully_initialized (MasonryHandler.new 0 800 600 0)
    false 0 (Or.inr rfl)⟩

/-- C2: across any callback sequence started from a fresh window session the
widget-tree constructor is invoked at most once; it is never invoked during
an event callback (the builder slot is untouched by on_event); and once some
frame callback runs with the GPU context available (created successfully or
already present) the instrumented invocation counter reads exactly 1, no
matter how many further callbacks follow. -/
theorem widget_builder_invoked_exactly_once (w : Widget) (wd ht : ℚ) (t0 : Nat)
    (cs : List Callback) (n : Nat) (hmem : Callback.frame true n ∈ cs) :
    (runCallbacks (MasonryHandler.new w wd ht t0) cs).2 = 1 ∧
    (∀ (h : MasonryHandler) (cs' : List Callback), (runCallbacks h cs').2 ≤ 1) ∧
    (∀ (h : MasonryHandler) (m : Nat) (e : baseview.Event),
      ((h.on_event m e).1).widget_builder = h.widget_builder) := by
  refine ⟨?_, ?_, fun h m e => on_event_widget_builder h m e⟩
  · have hnone := runCallbacks_mem_frame_true cs (MasonryHandler.new w wd ht t0)
      (fun _ => rfl) ⟨n, hmem⟩
    rcases runCallbacks_count cs (MasonryHandler.new w wd ht t0) with
      ⟨h1, _, _⟩ | ⟨_, heq⟩
    · exact h1
    · rw [hnone] at heq
      simp [MasonryHandler.new] at heq
  · intro h cs'
    rcases runCallbacks_count cs' h with ⟨h1, _, _⟩ | ⟨h0, _⟩
    · rw [h1]
    · rw [h0]; exact Nat.zero_le 1

/-- Witness for C2: one frame callback with a working GPU; the constructor
is invoked exactly once. -/
theorem widget_builder_invoked_exactly_once_witness :
    (Callback.frame true 7 ∈ [Callback.frame true 7]) ∧
    (runCallbacks (MasonryHandler.new 0 800 600 0) [Callback.frame true 7]).2 = 1 :=
  ⟨List.mem_singleton.mpr rfl,
   (widget_builder_invoked_exactly_once 0 800 600 0 [Callback.frame true 7] 7
      (List.mem_singleton.mpr rfl)).1⟩

/-- C8 counterexample: when the widget-tree handle is not yet present, the
controller's resize handling does nothing at all — the stored logical width
stays 5 instead of becoming 100 / 2. -/
theorem resize_event_without_root_counterexample :
    ((MasonryHandler.new 0 5 5 0).handle_masonry_event (.Resize 100 200 2)).width
      ≠ 100 / 2 := by
  show (5 : ℚ) ≠ 100 / 2
  norm_num

/-- C8 amended: when the controller processes a normalized resize event
while the widget-tree handle is present, it updates the stored logical size
to the physical dimensions divided by the reported scale, propagates the
scale to the Input Translator, resizes the Surface Renderer (when the GPU
context is present — and leaves it absent otherwise), and forwards a resize
notification followed by a rescale notification to the widget tree; with the
widget-tree handle absent the event is ignored entirely. -/
theorem resize_event_updates_session (h : MasonryHandler) (root : RenderRoot)
    (w ht s : ℚ) (hroot : h.render_root = some root) :
    (h.handle_masonry_event (.Resize w ht s)).width = w / s ∧
    (h.handle_masonry_event (.Resize w ht s)).height = ht / s ∧
    (h.handle_masonry_event (.Resize w ht s)).event_translator
      = h.event_translator.set_scale_factor s ∧
    (h.render_ctx = none → (h.handle_masonry_event (.Resize w ht s)).render_ctx = none) ∧
    (∀ ctx, h.render_ctx = some ctx →
      (h.handle_masonry_event (.Resize w ht s)).render_ctx
        = some (ctx.resize (asU32 w) (asU32 ht))) ∧
    (h.handle_masonry_event (.Resize w ht s)).render_root
      = some ((root.handle_window_event
          (.Resize (asU32 w) (asU32 ht))).handle_window_event (.Rescale s)) := by
  rcases hctx : h.render_ctx with _ | ctx <;>
    simp [MasonryHandler.handle_masonry_event, hroot, hctx]

/-- Witness for C8: a session with the widget-tree handle present; a resize
to physical 100×200 at scale 2 stores logical width 50. -/
theorem resize_event_updates_session_witness :
    (({ MasonryHandler.new 0 5 5 0 with render_root := some (RenderRoot.new 3) }
        : MasonryHandler).render_root = some (RenderRoot.new 3)) ∧
    (({ MasonryHandler.new 0 5 5 0 with render_root := some (RenderRoot.new 3) }
        : MasonryHandler).handle_masonry_event (.Resize 100 200 2)).width = 100 / 2 :=
  ⟨rfl, (resize_event_updates_session _ (RenderRoot.new 3) 100 200 2 rfl).1⟩

end MasonryBaseview
